import Mathlib

/-!
# Verification of the OpenAI-compatible provider adapter

Shallow embedding of `src/api/providers/openai.ts` (class `OpenAiHandler`).
Configuration options of type `string | undefined` are embedded as
`Option String`; JavaScript truthiness of a string (non-empty) is made
explicit at each use site, following the source. The network is embedded as
explicit transport arguments: the result of `client.models.list()` is an
`Except` value, and the chat-completion response stream is a list of chunks.
The adapter's one piece of mutable state, the cached model list
`availableModels`, is threaded explicitly through each operation.
-/

namespace OpenAiAdapter

/-- Role of an inbound (Anthropic-shaped) conversation message. -/
inductive InputRole
  | user
  | assistant
deriving DecidableEq, Repr

/-- An inbound conversation message (`Anthropic.Messages.MessageParam`). -/
structure InputMessage where
  role : InputRole
  content : String
deriving DecidableEq, Repr

/-- Role of an outbound OpenAI-wire message. -/
inductive OpenAiRole
  | system
  | user
  | assistant
  | developer
deriving DecidableEq, Repr

/-- An outbound message (`OpenAI.Chat.ChatCompletionMessageParam`). -/
structure OpenAiMessage where
  role : OpenAiRole
  content : String
deriving DecidableEq, Repr

/-- Model metadata record (`openAiModelInfo`): the fields of the shared
`ModelInfo` type that this adapter reads. Optional numeric fields are
`Option`s; temperature is embedded as a rational. -/
structure ModelInfo where
  temperature : Option Rat
  maxTokens : Option Int
  isR1FormatRequired : Option Bool
deriving DecidableEq, Repr

/-- Modelled from the spec: `openAiModelInfoSaneDefaults` lives in
`shared/api`, outside the provided sources. The spec only requires it to be
a built-in record of sane defaults (a temperature default, no token limit,
no alternate-format flag); the exact numbers are irrelevant to the claims. -/
def openAiModelInfoSaneDefaults : ModelInfo :=
  { temperature := some 0, maxTokens := none, isR1FormatRequired := some false }

/-- The configuration consumed by the adapter (`ApiHandlerOptions`), reduced
to the fields `OpenAiHandler` reads. `none` embeds `undefined`. -/
structure ApiHandlerOptions where
  openAiApiKey : Option String
  openAiBaseUrl : Option String
  azureApiVersion : Option String
  openAiModelId : Option String
  openAiModelInfo : Option ModelInfo
  o3MiniReasoningEffort : Option String
deriving DecidableEq, Repr

/-- Modelled from the spec: `azureOpenAiDefaultApiVersion` lives in
`shared/api`, outside the provided sources; the spec calls it "a fixed
fallback version". Its exact value is irrelevant to the claims. -/
def azureOpenAiDefaultApiVersion : String := "2024-08-01-preview"

/-- Substring test on character lists: does the second list occur
contiguously inside the first? Embeds JavaScript `String.includes`. -/
def charsContain (pat : List Char) : List Char → Bool
  | [] => pat.isEmpty
  | c :: cs => pat.isPrefixOf (c :: cs) || charsContain pat cs

/-- `strContains s pat` embeds the JavaScript call `s.includes(pat)`. -/
def strContains (s pat : String) : Bool :=
  charsContain pat.toList s.toList

/-- JavaScript truthiness of an optional string: `undefined` and the empty
string are falsy. -/
def optTruthy (o : Option String) : Bool :=
  match o with
  | some s => s != ""
  | none => false

/-- Embeds the JavaScript idiom `o || d` on an optional string: the left
operand when it is truthy, otherwise the default. -/
def orElseStr (o : Option String) (d : String) : String :=
  match o with
  | some s => if s = "" then d else s
  | none => d

/-- The underlying SDK client selected at construction: the
enterprise-gateway (`AzureOpenAI`) variant or the standard (`OpenAI`)
variant, with the constructor arguments the adapter passes. -/
inductive OpenAiClient
  | azure (baseURL : Option String) (apiKey : String) (apiVersion : String)
  | standard (baseURL : Option String) (apiKey : String)
deriving DecidableEq, Repr

/-- Embeds JavaScript `toLowerCase()` as character-wise ASCII lowering (the
host substring tested against it is plain ASCII). -/
def strToLower (s : String) : String :=
  String.mk (s.data.map Char.toLower)

/-- `options.openAiBaseUrl?.toLowerCase().includes("azure.com")`, with the
optional chain collapsing to false on a missing URL. -/
def urlIndicatesAzure (options : ApiHandlerOptions) : Bool :=
  match options.openAiBaseUrl with
  | some u => strContains (strToLower u) "azure.com"
  | none => false

/-- Embeds the client-selection branch of the `OpenAiHandler` constructor:
Azure mode when `azureApiVersion` is truthy or the lowercased base URL
contains `"azure.com"`; the API key defaults to the empty string. -/
def makeClient (options : ApiHandlerOptions) : OpenAiClient :=
  let apiKey := options.openAiApiKey.getD ""
  if optTruthy options.azureApiVersion || urlIndicatesAzure options then
    .azure options.openAiBaseUrl apiKey
      (orElseStr options.azureApiVersion azureOpenAiDefaultApiVersion)
  else
    .standard options.openAiBaseUrl apiKey

/-- One entry of the listing response (`response.data`); the adapter reads
only its `id`. -/
structure ModelEntry where
  id : String
deriving DecidableEq, Repr

/-- The listing response returned by `client.models.list()`. -/
structure ModelsResponse where
  data : List ModelEntry
deriving DecidableEq, Repr

/-- The outcome of one call to `client.models.list()`: either a response or
a thrown error (carrying its message). -/
abbrev ListTransport := Except String ModelsResponse

/-- Embeds `OpenAiHandler.listModels`: map the response entries to their id
strings; on any error, catch, log and return the empty list. -/
def listModels (t : ListTransport) : List String :=
  match t with
  | .ok response => response.data.map (·.id)
  | .error _ => []

/-- The adapter's mutable state: the cached model list `availableModels`. -/
structure AdapterState where
  availableModels : List String
deriving DecidableEq, Repr

/-- Embeds the private `initializeModelList` method (the asynchronous cache
priming run by the constructor): store the result of `listModels`; the
surrounding `try`/`catch` sets the empty list on error, which the
`Except`-catching `listModels` already yields. -/
def initModelList (t : ListTransport) (s : AdapterState) : AdapterState :=
  { s with availableModels := listModels t }

/-- Embeds the full constructor: select the client and prime the cache
(starting from the empty cache of a fresh instance). -/
def mkHandler (options : ApiHandlerOptions) (t : ListTransport) :
    OpenAiClient × AdapterState :=
  (makeClient options, initModelList t ⟨[]⟩)

/-- The error message of the one error `createMessage` raises itself. -/
def noModelsError : String := "No models available from the OpenAI-compatible server"

/-- Embeds the model-id resolution prefix of `createMessage`: use the
configured id when truthy; otherwise refresh the cache if it is empty
(a refresh failure leaves it empty), then take the first cached entry,
or fail with `noModelsError` when none exists. Returns the resolved id (or
the error) together with the updated state. -/
def resolveModelId (options : ApiHandlerOptions) (t : ListTransport)
    (s : AdapterState) : Except String String × AdapterState :=
  let modelId := options.openAiModelId.getD ""
  if modelId != "" then
    (.ok modelId, s)
  else
    let models :=
      if s.availableModels.isEmpty then listModels t else s.availableModels
    match models with
    | m :: _ => (.ok m, ⟨models⟩)
    | [] => (.error noModelsError, ⟨models⟩)

/-- The effective `isR1FormatRequired` flag:
`options.openAiModelInfo?.isR1FormatRequired ?? false`. -/
def effectiveIsR1FormatRequired (options : ApiHandlerOptions) : Bool :=
  (options.openAiModelInfo.bind (·.isR1FormatRequired)).getD false

/-- The initial temperature:
`options.openAiModelInfo?.temperature ?? openAiModelInfoSaneDefaults.temperature`. -/
def defaultTemperature (options : ApiHandlerOptions) : Option Rat :=
  match options.openAiModelInfo.bind (·.temperature) with
  | some temp => some temp
  | none => openAiModelInfoSaneDefaults.temperature

/-- The resolved max-token limit: forwarded only when the metadata value is
truthy (non-zero) and positive, following
`if (options.openAiModelInfo?.maxTokens && options.openAiModelInfo.maxTokens > 0)`. -/
def resolvedMaxTokens (options : ApiHandlerOptions) : Option Int :=
  match options.openAiModelInfo.bind (·.maxTokens) with
  | some m => if m != 0 && decide (0 < m) then some m else none
  | none => none

/-- The o3-mini reasoning effort:
`(options.o3MiniReasoningEffort) || "medium"`. -/
def o3MiniEffort (options : ApiHandlerOptions) : String :=
  orElseStr options.o3MiniReasoningEffort "medium"

/-- Modelled from the spec: `convertToOpenAiMessages` (in
`api/transform/openai-format`, outside the provided sources) is the
out-of-scope "message-format conversion helper" mapping role-tagged
conversation messages to the wire format, preserving role order and
content. -/
def convertToOpenAiMessages (messages : List InputMessage) : List OpenAiMessage :=
  messages.map fun m =>
    { role := match m.role with
        | .user => .user
        | .assistant => .assistant
      content := m.content }

/-- Merge consecutive same-role turns, joining their contents. -/
def mergeRuns : List OpenAiMessage → List OpenAiMessage
  | [] => []
  | m :: rest =>
    match mergeRuns rest with
    | [] => [m]
    | m2 :: rest2 =>
      if m.role = m2.role then
        ⟨m.role, m.content ++ "\n" ++ m2.content⟩ :: rest2
      else
        m :: m2 :: rest2

/-- Modelled from the spec: `convertToR1Format` (in
`api/transform/r1-format`, outside the provided sources) produces the
"alternate role layout", "a message-formatting convention required by
certain models where the system instruction is not sent as a dedicated
system role but folded into the first user turn": role-preserving
conversion with consecutive same-role turns merged, so that a leading
user-role system instruction folds into the first user turn. -/
def convertToR1Format (messages : List InputMessage) : List OpenAiMessage :=
  mergeRuns (convertToOpenAiMessages messages)

/-- The outbound chat-completion request, with the fields `createMessage`
passes to `client.chat.completions.create`. -/
structure ChatRequest where
  model : String
  messages : List OpenAiMessage
  temperature : Option Rat
  max_tokens : Option Int
  reasoning_effort : Option String
  stream : Bool
  include_usage : Bool
deriving DecidableEq, Repr

/-- Embeds the request-shaping middle of `createMessage` (after the model id
is resolved): sequential re-bindings mirror the source's mutations, so the
o3-mini branch overwrites the message list even when the DeepSeek/R1 branch
already reshaped it. -/
def buildRequest (options : ApiHandlerOptions) (modelId systemPrompt : String)
    (messages : List InputMessage) : ChatRequest :=
  let isDeepseekReasoner := strContains modelId "deepseek-reasoner"
  let isR1FormatRequired := effectiveIsR1FormatRequired options
  let isO3Mini := strContains modelId "o3-mini"
  let openAiMessages : List OpenAiMessage :=
    ⟨.system, systemPrompt⟩ :: convertToOpenAiMessages messages
  let temperature : Option Rat := defaultTemperature options
  let reasoningEffort : Option String := none
  let maxTokens : Option Int := resolvedMaxTokens options
  let openAiMessages :=
    if isDeepseekReasoner || isR1FormatRequired then
      convertToR1Format (⟨.user, systemPrompt⟩ :: messages)
    else openAiMessages
  let shaped :=
    if isO3Mini then
      ((⟨.developer, systemPrompt⟩ :: convertToOpenAiMessages messages :
          List OpenAiMessage),
        (none : Option Rat), some (o3MiniEffort options))
    else (openAiMessages, temperature, reasoningEffort)
  { model := modelId
    messages := shaped.1
    temperature := shaped.2.1
    max_tokens := maxTokens
    reasoning_effort := shaped.2.2
    stream := true
    include_usage := true }

/-- One delta of a response chunk; `reasoning_content` is the vendor
extension field (`none` embeds an absent field). -/
structure ChunkDelta where
  content : Option String
  reasoning_content : Option String
deriving DecidableEq, Repr

/-- One choice of a response chunk. -/
structure ChunkChoice where
  delta : Option ChunkDelta
deriving DecidableEq, Repr

/-- The usage totals a chunk may carry. -/
structure ChunkUsage where
  prompt_tokens : Option Nat
  completion_tokens : Option Nat
deriving DecidableEq, Repr

/-- One chunk of the response stream. -/
structure Chunk where
  choices : List ChunkChoice
  usage : Option ChunkUsage
deriving DecidableEq, Repr

/-- One event of the produced stream (`ApiStream`). -/
inductive ApiStreamEvent
  | text (text : String)
  | reasoning (reasoning : String)
  | usage (inputTokens outputTokens : Nat)
deriving DecidableEq, Repr

/-- `chunk.choices[0]?.delta`. -/
def chunkDelta (chunk : Chunk) : Option ChunkDelta :=
  chunk.choices.head?.bind (·.delta)

/-- Embeds one iteration of the `for await` loop of `createMessage`: the
events yielded for one chunk, in source order (text, then reasoning, then
usage). A delta string guards its event only when truthy (non-empty); a
missing usage count defaults to zero. -/
def processChunk (chunk : Chunk) : List ApiStreamEvent :=
  let delta := chunkDelta chunk
  let textEvents : List ApiStreamEvent :=
    match delta with
    | some d =>
      match d.content with
      | some s => if s != "" then [.text s] else []
      | none => []
    | none => []
  let reasoningEvents : List ApiStreamEvent :=
    match delta with
    | some d =>
      match d.reasoning_content with
      | some s => if s != "" then [.reasoning s] else []
      | none => []
    | none => []
  let usageEvents : List ApiStreamEvent :=
    match chunk.usage with
    | some u => [.usage (u.prompt_tokens.getD 0) (u.completion_tokens.getD 0)]
    | none => []
  textEvents ++ reasoningEvents ++ usageEvents

/-- Embeds the whole `for await` loop: concatenate the events of each chunk
in stream order; the sequence simply ends with the stream. -/
def processStream : List Chunk → List ApiStreamEvent
  | [] => []
  | c :: cs => processChunk c ++ processStream cs

/-- Spec-side view: an optional string delta kept only when it is present
and non-empty (JavaScript-truthy). -/
def presentNonempty (o : Option String) : Option String :=
  o.bind fun s => if s = "" then none else some s

/-- Spec-side view: the text event a chunk yields, when its first choice
carries a present, non-empty content delta. -/
def chunkTextEvent (chunk : Chunk) : Option ApiStreamEvent :=
  (presentNonempty ((chunkDelta chunk).bind (·.content))).map .text

/-- Spec-side view: the reasoning event a chunk yields, when its first
choice carries a present, non-empty vendor reasoning delta. -/
def chunkReasoningEvent (chunk : Chunk) : Option ApiStreamEvent :=
  (presentNonempty ((chunkDelta chunk).bind (·.reasoning_content))).map .reasoning

/-- Spec-side view: the usage event a chunk yields, when it carries usage
totals; missing counts default to zero. -/
def chunkUsageEvent (chunk : Chunk) : Option ApiStreamEvent :=
  chunk.usage.map fun u => .usage (u.prompt_tokens.getD 0) (u.completion_tokens.getD 0)

/-- Embeds `createMessage` end to end: resolve the model id (possibly
refreshing the cache), abort with the error before any request when
resolution fails, otherwise issue the shaped request and re-emit the
response stream as events. The returned state is the adapter state after
the call. -/
def createMessage (options : ApiHandlerOptions) (t : ListTransport)
    (systemPrompt : String) (messages : List InputMessage)
    (chunks : List Chunk) (s : AdapterState) :
    Except String (ChatRequest × List ApiStreamEvent) × AdapterState :=
  match resolveModelId options t s with
  | (.error e, s1) => (.error e, s1)
  | (.ok modelId, s1) =>
    (.ok (buildRequest options modelId systemPrompt messages,
      processStream chunks), s1)

/-- Embeds `listModels` as a state-indexed operation: the method reads no
adapter state and writes none. -/
def listModelsOp (t : ListTransport) (s : AdapterState) :
    List String × AdapterState :=
  (listModels t, s)

/-- Embeds `getModel`. -/
def getModel (options : ApiHandlerOptions) : String × ModelInfo :=
  (options.openAiModelId.getD "", options.openAiModelInfo.getD openAiModelInfoSaneDefaults)

/-- Embeds `getAvailableModels`: a snapshot of the cache. -/
def getAvailableModels (s : AdapterState) : List String × AdapterState :=
  (s.availableModels, s)

/-! ## Helper lemmas -/

theorem optTruthy_iff (o : Option String) :
    optTruthy o = true ↔ ∃ v, o = some v ∧ v ≠ "" := by
  cases o <;> simp [optTruthy]

theorem urlIndicatesAzure_iff (options : ApiHandlerOptions) :
    urlIndicatesAzure options = true ↔
      ∃ u, options.openAiBaseUrl = some u ∧ strContains (strToLower u) "azure.com" = true := by
  cases h : options.openAiBaseUrl <;> simp [urlIndicatesAzure, h]

/-! ## Claims -/

/-- C2. Stream-event mapping: each chunk yields its text event exactly when
a present, non-empty content delta exists, its reasoning event exactly when
the vendor reasoning field is present and non-empty, and its usage event
exactly when usage totals are carried (missing counts defaulting to zero),
in that per-chunk order; and the three-chunk simulated stream (content
"Hello"; reasoning "thinking"; usage 10/5) produces exactly
text("Hello"), reasoning("thinking"), usage(10,5), with no end-of-stream
event after it. -/
theorem c2_stream_event_mapping :
    (∀ chunk : Chunk,
        processChunk chunk =
          (chunkTextEvent chunk).toList ++ (chunkReasoningEvent chunk).toList ++
            (chunkUsageEvent chunk).toList)
    ∧ processStream
        [⟨[⟨some ⟨some "Hello", none⟩⟩], none⟩,
          ⟨[⟨some ⟨none, some "thinking"⟩⟩], none⟩,
          ⟨[], some ⟨some 10, some 5⟩⟩] =
        [.text "Hello", .reasoning "thinking", .usage 10 5] := by
  refine ⟨fun chunk => ?_, by decide⟩
  unfold processChunk chunkTextEvent chunkReasoningEvent chunkUsageEvent presentNonempty
  cases hd : chunkDelta chunk with
  | none => cases hu : chunk.usage <;> simp
  | some d =>
    cases hc : d.content <;> cases hr : d.reasoning_content <;>
      cases hu : chunk.usage <;> simp [hc, hr] <;> split_ifs <;> simp_all

/-- C7. List-models total fallback: the listing operation maps a successful
response to its identifier strings, and returns the empty sequence on any
listing failure instead of raising (the embedding is a total function into
lists, so no error reaches the caller). -/
theorem c7_list_models_total :
    (∀ response : ModelsResponse,
        listModels (Except.ok response) = response.data.map (·.id))
    ∧ ∀ e : String, listModels (Except.error e) = [] :=
  ⟨fun _ => rfl, fun _ => rfl⟩

/-- C10. Total chunk handling with an empty choices list: a chunk whose
choices are empty, or whose first choice has no delta, is processed without
failure, yields no text or reasoning event, and still yields the usage
event when usage totals are carried. -/
theorem c10_empty_choices_total (chunk : Chunk)
    (h : chunk.choices = [] ∨
      ∃ choice rest, chunk.choices = choice :: rest ∧ choice.delta = none) :
    processChunk chunk =
      match chunk.usage with
      | some u => [ApiStreamEvent.usage (u.prompt_tokens.getD 0) (u.completion_tokens.getD 0)]
      | none => [] := by
  have hd : chunkDelta chunk = none := by
    rcases h with h | ⟨choice, rest, hc, hdel⟩
    · simp [chunkDelta, h]
    · simp [chunkDelta, hc, hdel]
  unfold processChunk
  rw [hd]
  cases hu : chunk.usage <;> simp

theorem c10_empty_choices_total_witness :
    processChunk ⟨[], some ⟨some 10, some 5⟩⟩ = [ApiStreamEvent.usage 10 5] :=
  c10_empty_choices_total ⟨[], some ⟨some 10, some 5⟩⟩ (Or.inl rfl)

/-- C5. Client-variant selection at construction: the enterprise-gateway
(Azure) client is instantiated exactly when a truthy explicit API version
is configured or the lowercased base URL contains the gateway host
substring; an explicit truthy version is passed through, the fixed fallback
version is used when Azure mode is forced by the URL alone, and otherwise
the standard client is instantiated. -/
theorem c5_client_variant (options : ApiHandlerOptions) :
    ((∃ bu ak av, makeClient options = OpenAiClient.azure bu ak av) ↔
        (∃ v, options.azureApiVersion = some v ∧ v ≠ "") ∨
          ∃ u, options.openAiBaseUrl = some u ∧ strContains (strToLower u) "azure.com" = true)
    ∧ (∀ v, options.azureApiVersion = some v → v ≠ "" →
        makeClient options =
          OpenAiClient.azure options.openAiBaseUrl (options.openAiApiKey.getD "") v)
    ∧ ((options.azureApiVersion = none ∨ options.azureApiVersion = some "") →
        urlIndicatesAzure options = true →
        makeClient options =
          OpenAiClient.azure options.openAiBaseUrl (options.openAiApiKey.getD "")
            azureOpenAiDefaultApiVersion)
    ∧ ((options.azureApiVersion = none ∨ options.azureApiVersion = some "") →
        urlIndicatesAzure options = false →
        makeClient options =
          OpenAiClient.standard options.openAiBaseUrl (options.openAiApiKey.getD "")) := by
  refine ⟨?_, ?_, ?_, ?_⟩
  · by_cases hcond : (optTruthy options.azureApiVersion || urlIndicatesAzure options) = true
    · rw [Bool.or_eq_true, optTruthy_iff, urlIndicatesAzure_iff] at hcond
      simp only [makeClient]
      rw [if_pos]
      · simp only [hcond, iff_true]
        exact ⟨_, _, _, rfl⟩
      · rw [Bool.or_eq_true, optTruthy_iff, urlIndicatesAzure_iff]
        exact hcond
    · rw [Bool.or_eq_true, optTruthy_iff, urlIndicatesAzure_iff] at hcond
      simp only [makeClient]
      rw [if_neg]
      · simp only [hcond, iff_false]
        intro ⟨bu, ak, av, habs⟩
        exact absurd habs (by simp)
      · rw [Bool.or_eq_true, optTruthy_iff, urlIndicatesAzure_iff]
        exact hcond
  · intro v hv hne
    simp [makeClient, optTruthy, hv, orElseStr, hne, bne_iff_ne]
  · intro hv hurl
    rcases hv with hv | hv <;>
      simp [makeClient, optTruthy, hv, hurl, orElseStr]
  · intro hv hurl
    rcases hv with hv | hv <;>
      simp [makeClient, optTruthy, hv, hurl]

theorem c5_client_variant_witness :
    makeClient ⟨none, none, some "v1", none, none, none⟩ =
      OpenAiClient.azure none "" "v1" ∧
    makeClient ⟨none, some "https://myhost.AZURE.com/v1", none, none, none, none⟩ =
      OpenAiClient.azure (some "https://myhost.AZURE.com/v1") ""
        azureOpenAiDefaultApiVersion :=
  ⟨(c5_client_variant ⟨none, none, some "v1", none, none, none⟩).2.1 "v1" rfl
      (by decide),
    (c5_client_variant ⟨none, some "https://myhost.AZURE.com/v1", none, none, none,
      none⟩).2.2.1 (Or.inl rfl) (by decide)⟩

/-- C6. Max-tokens forwarding: the outbound request carries the metadata
max-tokens value exactly when that value is a positive number; a zero,
negative, or absent metadata value leaves the parameter unset. -/
theorem c6_max_tokens (options : ApiHandlerOptions) (modelId systemPrompt : String)
    (messages : List InputMessage) :
    (∀ m : Int, options.openAiModelInfo.bind (·.maxTokens) = some m → 0 < m →
        (buildRequest options modelId systemPrompt messages).max_tokens = some m)
    ∧ (∀ m : Int, options.openAiModelInfo.bind (·.maxTokens) = some m → m ≤ 0 →
        (buildRequest options modelId systemPrompt messages).max_tokens = none)
    ∧ (options.openAiModelInfo.bind (·.maxTokens) = none →
        (buildRequest options modelId systemPrompt messages).max_tokens = none) := by
  have hb : (buildRequest options modelId systemPrompt messages).max_tokens =
      resolvedMaxTokens options := rfl
  refine ⟨?_, ?_, ?_⟩
  · intro m hm hpos
    have hne : m ≠ 0 := by omega
    rw [hb]
    simp [resolvedMaxTokens, hm, hne, hpos, bne_iff_ne]
  · intro m hm hle
    have hnpos : ¬(0 < m) := by omega
    rw [hb]
    simp [resolvedMaxTokens, hm, hnpos]
  · intro hm
    rw [hb]
    simp [resolvedMaxTokens, hm]

theorem c6_max_tokens_witness :
    ((0 : Int) < 7 ∧
      (buildRequest ⟨none, none, none, none, some ⟨none, some 7, none⟩, none⟩
        "m" "s" []).max_tokens = some 7) ∧
    ((-2 : Int) ≤ 0 ∧
      (buildRequest ⟨none, none, none, none, some ⟨none, some (-2), none⟩, none⟩
        "m" "s" []).max_tokens = none) :=
  ⟨⟨by decide,
      (c6_max_tokens ⟨none, none, none, none, some ⟨none, some 7, none⟩, none⟩
        "m" "s" []).1 7 rfl (by decide)⟩,
    ⟨by decide,
      (c6_max_tokens ⟨none, none, none, none, some ⟨none, some (-2), none⟩, none⟩
        "m" "s" []).2.1 (-2) rfl (by decide)⟩⟩

/-- C3. o3-mini shaping and its precedence: whenever the resolved model id
contains the o3-mini pattern, the outbound request has no temperature, its
message list starts with the system instruction under the developer role
followed by the converted conversation, and its reasoning effort is the
configured preference when truthy, "medium" when unset — with no condition
excluding ids that also match the DeepSeek-reasoner pattern, so the
adjustments apply to those ids as well (the witness uses such an id). -/
theorem c3_o3mini_shaping (options : ApiHandlerOptions)
    (modelId systemPrompt : String) (messages : List InputMessage)
    (h : strContains modelId "o3-mini" = true) :
    (buildRequest options modelId systemPrompt messages).temperature = none
    ∧ (buildRequest options modelId systemPrompt messages).messages =
        ⟨.developer, systemPrompt⟩ :: convertToOpenAiMessages messages
    ∧ (options.o3MiniReasoningEffort = none →
        (buildRequest options modelId systemPrompt messages).reasoning_effort =
          some "medium")
    ∧ ∀ e, options.o3MiniReasoningEffort = some e → e ≠ "" →
        (buildRequest options modelId systemPrompt messages).reasoning_effort =
          some e := by
  refine ⟨?_, ?_, ?_, ?_⟩
  · simp [buildRequest, h]
  · simp [buildRequest, h]
  · intro he
    simp [buildRequest, h, o3MiniEffort, orElseStr, he]
  · intro e he hne
    simp [buildRequest, h, o3MiniEffort, orElseStr, he, hne]

theorem c3_o3mini_shaping_witness :
    strContains "deepseek-reasoner-o3-mini" "o3-mini" = true ∧
    strContains "deepseek-reasoner-o3-mini" "deepseek-reasoner" = true ∧
    (buildRequest ⟨none, none, none, none, none, none⟩ "deepseek-reasoner-o3-mini"
        "sys" []).temperature = none ∧
    (buildRequest ⟨none, none, none, none, none, none⟩ "deepseek-reasoner-o3-mini"
        "sys" []).reasoning_effort = some "medium" :=
  ⟨by decide, by decide,
    (c3_o3mini_shaping ⟨none, none, none, none, none, none⟩
      "deepseek-reasoner-o3-mini" "sys" [] (by decide)).1,
    (c3_o3mini_shaping ⟨none, none, none, none, none, none⟩
      "deepseek-reasoner-o3-mini" "sys" [] (by decide)).2.2.1 rfl⟩

/-- C4, counterexample to the claim as stated: the model id
"deepseek-reasoner-o3-mini" matches the DeepSeek-reasoner pattern, yet the
outbound message list is not the alternate role layout with the system
instruction folded in as a leading user turn — the o3-mini branch runs
after the DeepSeek/R1 branch and overwrites the message list with the
developer-role layout. -/
theorem c4_counterexample :
    strContains "deepseek-reasoner-o3-mini" "deepseek-reasoner" = true ∧
    (buildRequest ⟨none, none, none, none, none, none⟩ "deepseek-reasoner-o3-mini"
        "sys" []).messages ≠
      convertToR1Format [⟨.user, "sys"⟩] := by
  refine ⟨by decide, ?_⟩
  intro habs
  have h1 : (buildRequest ⟨none, none, none, none, none, none⟩
      "deepseek-reasoner-o3-mini" "sys" []).messages =
      [⟨.developer, "sys"⟩] := by decide
  have h2 : convertToR1Format [⟨.user, "sys"⟩] =
      [({ role := .user, content := "sys" } : OpenAiMessage)] := by decide
  rw [h1, h2] at habs
  simp at habs

/-- C4, amended: whenever the resolved model id matches the
DeepSeek-reasoner pattern or the metadata flag requiring alternate
formatting is set, and the id does not also match the o3-mini pattern
(whose shaping overwrites the message list), the outbound message list is
the alternate role layout of the conversation with the system instruction
folded in as a leading user-role message. -/
theorem c4_r1_reshaping (options : ApiHandlerOptions)
    (modelId systemPrompt : String) (messages : List InputMessage)
    (h : strContains modelId "deepseek-reasoner" = true ∨
      effectiveIsR1FormatRequired options = true)
    (ho3 : strContains modelId "o3-mini" = false) :
    (buildRequest options modelId systemPrompt messages).messages =
      convertToR1Format (⟨.user, systemPrompt⟩ :: messages) := by
  rcases h with h | h <;> simp [buildRequest, h, ho3]

theorem c4_r1_reshaping_witness :
    (strContains "deepseek-reasoner" "deepseek-reasoner" = true ∧
      strContains "deepseek-reasoner" "o3-mini" = false) ∧
    (buildRequest ⟨none, none, none, none, none, none⟩ "deepseek-reasoner" "sys"
        [⟨.user, "hi"⟩]).messages =
      convertToR1Format [⟨.user, "sys"⟩, ⟨.user, "hi"⟩] :=
  ⟨⟨by decide, by decide⟩,
    c4_r1_reshaping ⟨none, none, none, none, none, none⟩ "deepseek-reasoner" "sys"
      [⟨.user, "hi"⟩] (Or.inl (by decide)) (by decide)⟩

/-- C1. Model-id resolution in `createMessage`: a truthy configured model id
is used as the request's model; otherwise, with an empty cache, a refresh is
attempted (a failed listing yields the empty list, i.e. "still empty"), the
first entry of the now non-empty cache becomes the model, and if the cache
is still empty the call returns the "no models available" error — an
`Except.error` carrying no request, so no chat-completion request is
issued. -/
theorem c1_model_resolution (options : ApiHandlerOptions) (t : ListTransport)
    (systemPrompt : String) (messages : List InputMessage) (chunks : List Chunk)
    (s : AdapterState) :
    (∀ m, options.openAiModelId = some m → m ≠ "" →
        (createMessage options t systemPrompt messages chunks s).1 =
          .ok (buildRequest options m systemPrompt messages, processStream chunks))
    ∧ (options.openAiModelId.getD "" = "" → s.availableModels = [] →
        listModels t = [] →
        (createMessage options t systemPrompt messages chunks s).1 =
          .error noModelsError)
    ∧ (∀ e, listModels (Except.error e) = [])
    ∧ (options.openAiModelId.getD "" = "" → s.availableModels = [] →
        ∀ m ms, listModels t = m :: ms →
          (createMessage options t systemPrompt messages chunks s).1 =
            .ok (buildRequest options m systemPrompt messages, processStream chunks))
    ∧ (options.openAiModelId.getD "" = "" →
        ∀ m ms, s.availableModels = m :: ms →
          (createMessage options t systemPrompt messages chunks s).1 =
            .ok (buildRequest options m systemPrompt messages,
              processStream chunks)) := by
  refine ⟨?_, ?_, fun _ => rfl, ?_, ?_⟩
  · intro m hm hne
    simp [createMessage, resolveModelId, hm, hne, bne_iff_ne]
  · intro hid hcache hlist
    simp [createMessage, resolveModelId, hid, hcache, hlist]
  · intro hid hcache m ms hlist
    simp [createMessage, resolveModelId, hid, hcache, hlist]
  · intro hid m ms hcache
    simp [createMessage, resolveModelId, hid, hcache]

theorem c1_model_resolution_witness :
    ((createMessage ⟨none, none, none, none, none, none⟩ (Except.error "down")
        "sys" [] [] ⟨[]⟩).1 = Except.error noModelsError) ∧
    ((createMessage ⟨none, none, none, none, none, none⟩
        (Except.ok ⟨[⟨"m1"⟩, ⟨"m2"⟩]⟩) "sys" [] [] ⟨[]⟩).1 =
      .ok (buildRequest ⟨none, none, none, none, none, none⟩ "m1" "sys" [], [])) :=
  ⟨(c1_model_resolution ⟨none, none, none, none, none, none⟩ (Except.error "down")
      "sys" [] [] ⟨[]⟩).2.1 rfl rfl rfl,
    (c1_model_resolution ⟨none, none, none, none, none, none⟩
      (Except.ok ⟨[⟨"m1"⟩, ⟨"m2"⟩]⟩) "sys" [] [] ⟨[]⟩).2.2.2.1 rfl rfl
      "m1" ["m2"] rfl⟩

/-- C8. Cache stability invariant: with a non-empty cached model list, the
chat-completion operation returns the state unchanged (it writes the cache
only when it is empty), and the listing and cache-snapshot operations never
write it — so a non-empty cache is never reset or invalidated by any
adapter operation. -/
theorem c8_cache_stability (options : ApiHandlerOptions) (t : ListTransport)
    (systemPrompt : String) (messages : List InputMessage) (chunks : List Chunk)
    (s : AdapterState) (h : s.availableModels ≠ []) :
    (createMessage options t systemPrompt messages chunks s).2 = s
    ∧ (listModelsOp t s).2 = s
    ∧ (getAvailableModels s).2 = s := by
  refine ⟨?_, rfl, rfl⟩
  obtain ⟨a, as, hs⟩ := List.exists_cons_of_ne_nil h
  by_cases hid : options.openAiModelId.getD "" = ""
  · simp [createMessage, resolveModelId, hid, hs]
    rw [← hs]
  · simp [createMessage, resolveModelId, bne_iff_ne, hid]

theorem c8_cache_stability_witness :
    (["m1", "m2"] : List String) ≠ [] ∧
    (createMessage ⟨none, none, none, none, none, none⟩ (Except.error "down")
        "sys" [] [] ⟨["m1", "m2"]⟩).2 = ⟨["m1", "m2"]⟩ :=
  ⟨by decide,
    (c8_cache_stability ⟨none, none, none, none, none, none⟩ (Except.error "down")
      "sys" [] [] ⟨["m1", "m2"]⟩ (by decide)).1⟩

/-- C9. Frame property of `createMessage` under a truthy explicit model id:
the call's outcome does not depend on the listing transport (no
model-listing call is made during resolution), and the cached model list is
returned unchanged. -/
theorem c9_frame_explicit_model (options : ApiHandlerOptions) (m : String)
    (hm : options.openAiModelId = some m) (hne : m ≠ "")
    (t t2 : ListTransport) (systemPrompt : String)
    (messages : List InputMessage) (chunks : List Chunk) (s : AdapterState) :
    createMessage options t systemPrompt messages chunks s =
      createMessage options t2 systemPrompt messages chunks s
    ∧ (createMessage options t systemPrompt messages chunks s).2 = s := by
  constructor <;> simp [createMessage, resolveModelId, hm, hne, bne_iff_ne]

theorem c9_frame_explicit_model_witness :
    createMessage ⟨none, none, none, some "gpt-4o", none, none⟩
        (Except.error "down") "sys" [] [] ⟨["cached"]⟩ =
      createMessage ⟨none, none, none, some "gpt-4o", none, none⟩
        (Except.ok ⟨[⟨"other"⟩]⟩) "sys" [] [] ⟨["cached"]⟩ ∧
    (createMessage ⟨none, none, none, some "gpt-4o", none, none⟩
        (Except.error "down") "sys" [] [] ⟨["cached"]⟩).2 = ⟨["cached"]⟩ :=
  c9_frame_explicit_model ⟨none, none, none, some "gpt-4o", none, none⟩ "gpt-4o"
    rfl (by decide) (Except.error "down") (Except.ok ⟨[⟨"other"⟩]⟩) "sys" [] []
    ⟨["cached"]⟩

end OpenAiAdapter
